import Mathlib

/-!
Shallow embedding of the Medicine Tracker backend (src/main.py).

The backend is a single-table CRUD service over a `Medicine` SQLite table,
accessed through SQLModel.  We model the database as a `List Medicine` in
rowid order.  SQLite assigns a new row the rowid `max existing rowid + 1`
(`1` on an empty table), so appending the freshly created record keeps the
list simultaneously in rowid order and in insertion order; `SELECT` without
`ORDER BY` scans rows in rowid order, which is therefore the order of the
modelled list.  HTTP errors raised via `HTTPException(code, detail)` are
modelled by the `HTTPException` structure, and each endpoint returns the
HTTP outcome paired with the database state after the request.
-/

/-- A persisted row of the `Medicine` table (class `Medicine` in main.py,
after the id has been assigned by the database). -/
structure Medicine where
  id : Nat
  name : String
  dose : String
  time_of_day : String
  notes : Option String
  active : Bool
  prescription_url : Option String
deriving Repr, DecidableEq

/-- Payload of `POST /medicines` (class `MedicineCreate`), with the
defaults declared on `MedicineBase`. -/
structure MedicineCreate where
  name : String
  dose : String
  time_of_day : String
  notes : Option String := none
  active : Bool := true
  prescription_url : Option String := none
deriving Repr, DecidableEq

/-- Payload of `PUT /medicines/{id}` (class `MedicineUpdate`).  Every field
is `Optional[...]`, so validation accepts an explicit `null` for any of
them, and pydantic's `dict(exclude_unset=True)` distinguishes a field
that was not supplied from one supplied as `null`.  Each field is
therefore doubly wrapped: the outer `Option` is "supplied or not", the
inner one is the supplied JSON value, which may be `null` even for
columns that are NOT NULL in the table. -/
structure MedicineUpdate where
  name : Option (Option String) := none
  dose : Option (Option String) := none
  time_of_day : Option (Option String) := none
  notes : Option (Option String) := none
  active : Option (Option Bool) := none
  prescription_url : Option (Option String) := none
deriving Repr, DecidableEq

/-- `HTTPException(status_code, detail)` from fastapi. -/
structure HTTPException where
  code : Nat
  detail : String
deriving Repr, DecidableEq

/-- The rowid SQLite hands to an inserted row: one more than the largest
existing rowid, `1` for an empty table. -/
def newId (db : List Medicine) : Nat :=
  (db.map (fun r => r.id)).foldr max 0 + 1

/-- `POST /medicines` (`create_medicine`): builds a row from the payload,
inserts it, and returns the refreshed row (now carrying its id). -/
def create_medicine (m : MedicineCreate) (db : List Medicine) :
    Medicine × List Medicine :=
  let r : Medicine :=
    { id := newId db, name := m.name, dose := m.dose,
      time_of_day := m.time_of_day, notes := m.notes, active := m.active,
      prescription_url := m.prescription_url }
  (r, db ++ [r])

/-- Python truthiness of the `Optional[str]` query parameter: `None` and
the empty string are falsy (`if time_of_day:` in `list_medicines`). -/
def py_truthy : Option String → Bool
  | none => false
  | some s => !(s == "")

/-- `GET /medicines` (`list_medicines`): selects all rows, adding a
`WHERE time_of_day = ?` clause only when the parameter is truthy. -/
def list_medicines (time_of_day : Option String) (db : List Medicine) :
    List Medicine :=
  if py_truthy time_of_day then
    db.filter (fun r => r.time_of_day == time_of_day.getD "")
  else
    db

/-- `GET /medicines/{id}` (`get_medicine`): `session.get` by primary key,
404 when absent.  The database is never modified. -/
def get_medicine (medicine_id : Nat) (db : List Medicine) :
    Except HTTPException Medicine × List Medicine :=
  match db.find? (fun r => r.id == medicine_id) with
  | none => (Except.error ⟨404, "Medicine not found"⟩, db)
  | some med => (Except.ok med, db)

/-- The committed effect of the `setattr` loop of `update_medicine`: a
field present in `medicine_update.dict(exclude_unset=True)` with a
non-null value overwrites the column, an unsupplied field keeps its
value, and for the two nullable columns (`notes`, `prescription_url`) a
supplied `null` genuinely stores `null`.  For the NOT NULL columns the
inner fallback to the old value is unreachable: `update_medicine` only
commits when no NOT NULL column was supplied as `null` (otherwise the
commit raises and nothing is stored).  `id` is not a field of
`MedicineUpdate`, so it is never touched. -/
def applyUpdate (u : MedicineUpdate) (m : Medicine) : Medicine :=
  { m with
    name := (u.name.getD (some m.name)).getD m.name,
    dose := (u.dose.getD (some m.dose)).getD m.dose,
    time_of_day := (u.time_of_day.getD (some m.time_of_day)).getD m.time_of_day,
    notes := u.notes.getD m.notes,
    active := (u.active.getD (some m.active)).getD m.active,
    prescription_url := u.prescription_url.getD m.prescription_url }

/-- Whether the update payload supplies `null` for a column SQLModel
created as NOT NULL: `name`, `dose` and `time_of_day` are required
strings on `MedicineBase` and `active` is a non-Optional bool.  On such a
payload the `setattr` loop sets the attribute to `None` and
`session.commit()` raises `IntegrityError`. -/
def nullsNotNullColumn (u : MedicineUpdate) : Bool :=
  u.name == some none || u.dose == some none
    || u.time_of_day == some none || u.active == some none

/-- `PUT /medicines/{id}` (`update_medicine`): fetch by primary key (404
when absent), overwrite the supplied fields, commit, return the refreshed
row.  When the payload supplies `null` for a NOT NULL column, the commit
raises `IntegrityError`, FastAPI surfaces it as a bare HTTP 500 and the
session rolls back, leaving the database unchanged.  Otherwise committing
rewrites the row in place, so rowid order is preserved. -/
def update_medicine (medicine_id : Nat) (u : MedicineUpdate)
    (db : List Medicine) : Except HTTPException Medicine × List Medicine :=
  match db.find? (fun r => r.id == medicine_id) with
  | none => (Except.error ⟨404, "Medicine not found"⟩, db)
  | some med =>
      if nullsNotNullColumn u then
        (Except.error ⟨500, "Internal Server Error"⟩, db)
      else
        (Except.ok (applyUpdate u med),
         db.map (fun r => if r.id == medicine_id then applyUpdate u r else r))

/-- `DELETE /medicines/{id}` (`delete_medicine`): fetch by primary key
(404 when absent), delete the row, return `{"status": "deleted"}`. -/
def delete_medicine (medicine_id : Nat) (db : List Medicine) :
    Except HTTPException String × List Medicine :=
  match db.find? (fun r => r.id == medicine_id) with
  | none => (Except.error ⟨404, "Medicine not found"⟩, db)
  | some _ =>
      (Except.ok "deleted", db.filter (fun r => !(r.id == medicine_id)))

/-- The stored filename `f"{medicine_id}_{file.filename}"` of
`upload_prescription`. -/
def uploadFilename (medicine_id : Nat) (filename : String) : String :=
  toString medicine_id ++ "_" ++ filename

/-- `POST /upload-prescription/{id}` (`upload_prescription`): 404 when the
record is absent; otherwise write the bytes to disk (`writeOk` abstracts
whether the I/O inside the `try` block succeeds), set `prescription_url`
to `prescriptions/{id}_{filename}`, commit, and answer
`{"status": "uploaded", "file": url}`.  When the write raises, the commit
never happens, the session rolls back, and a 500 is returned. -/
def upload_prescription (medicine_id : Nat) (filename : String)
    (writeOk : Bool) (db : List Medicine) :
    Except HTTPException (String × String) × List Medicine :=
  match db.find? (fun r => r.id == medicine_id) with
  | none => (Except.error ⟨404, "Medicine not found"⟩, db)
  | some _ =>
      let url := "prescriptions/" ++ uploadFilename medicine_id filename
      if writeOk then
        (Except.ok ("uploaded", url),
         db.map (fun r =>
           if r.id == medicine_id then { r with prescription_url := some url }
           else r))
      else
        (Except.error ⟨500, "Upload failed"⟩, db)

/-- `GET /prescriptions/{filename}` (`get_prescription`): 404 when the file
is not on disk, otherwise serve it.  The directory is modelled as the list
of filenames it holds. -/
def get_prescription (filename : String) (files : List String) :
    Except HTTPException String :=
  if files.contains filename then Except.ok filename
  else Except.error ⟨404, "Prescription not found"⟩

/-- An endpoint outcome either succeeded or failed with one of the given
status codes. -/
def errWithin (codes : List Nat) : Except HTTPException α → Prop
  | Except.error e => e.code ∈ codes
  | Except.ok _ => True

/-- One operation of the kind that mutates an existing row:
`PUT /medicines/{id}` or `POST /upload-prescription/{id}`. -/
inductive MedOp where
  | update (medicine_id : Nat) (u : MedicineUpdate)
  | upload (medicine_id : Nat) (filename : String) (writeOk : Bool)
deriving Repr, DecidableEq

/-- The database state after one row-mutating request. -/
def applyOp : MedOp → List Medicine → List Medicine
  | MedOp.update i u, db => (update_medicine i u db).2
  | MedOp.upload i f ok, db => (upload_prescription i f ok db).2

/-- The database state after a sequence of row-mutating requests. -/
def applyOps (ops : List MedOp) (db : List Medicine) : List Medicine :=
  ops.foldl (fun db op => applyOp op db) db

/-- A sample row, used to instantiate theorems at concrete inputs. -/
def medA : Medicine :=
  { id := 1, name := "Aspirin", dose := "100mg", time_of_day := "morning",
    notes := none, active := true, prescription_url := none }

/-- A second sample row with a different id and time_of_day. -/
def medB : Medicine :=
  { id := 2, name := "Ibuprofen", dose := "200mg", time_of_day := "evening",
    notes := some "after food", active := true, prescription_url := none }

/-- A sample partial update supplying only `dose` and `active`, both with
non-null values. -/
def uSample : MedicineUpdate :=
  { dose := some (some "250mg"), active := some (some false) }

-- Basic facts about `newId`.

theorem id_le_fold (db : List Medicine) (r : Medicine) (h : r ∈ db) :
    r.id ≤ (db.map (fun r => r.id)).foldr max 0 := by
  induction db with
  | nil => cases h
  | cons a l ih =>
      rcases List.mem_cons.mp h with h | h
      · subst h; exact le_max_left _ _
      · exact le_trans (ih h) (le_max_right _ _)

theorem newId_fresh (db : List Medicine) (r : Medicine) (h : r ∈ db) :
    r.id ≠ newId db := by
  have := id_le_fold db r h
  unfold newId
  omega

/-- C1: for every valid `MedicineCreate` input, creating a record via
`create_medicine` and then fetching it by the returned id via
`get_medicine` yields a record whose name, dose, time_of_day, notes,
active and prescription_url equal the input's field values, plus the id
assigned at creation. -/
theorem create_then_get_roundtrip (m : MedicineCreate) (db : List Medicine) :
    (get_medicine (create_medicine m db).1.id (create_medicine m db).2).1
      = Except.ok (create_medicine m db).1
    ∧ (create_medicine m db).1.name = m.name
    ∧ (create_medicine m db).1.dose = m.dose
    ∧ (create_medicine m db).1.time_of_day = m.time_of_day
    ∧ (create_medicine m db).1.notes = m.notes
    ∧ (create_medicine m db).1.active = m.active
    ∧ (create_medicine m db).1.prescription_url = m.prescription_url
    ∧ (create_medicine m db).1.id = newId db := by
  have hnone : db.find? (fun r => r.id == newId db) = none := by
    rw [List.find?_eq_none]
    intro x hx
    simp only [beq_iff_eq]
    exact newId_fresh db x hx
  refine ⟨?_, rfl, rfl, rfl, rfl, rfl, rfl, rfl⟩
  simp [create_medicine, get_medicine, List.find?_append, hnone, List.find?]

/-- C9: calling `list_medicines` with `time_of_day` equal to the empty
string applies no filter: it returns every record in the database, exactly
as if no filter had been supplied. -/
theorem list_empty_string_no_filter (db : List Medicine) :
    list_medicines (some "") db = db
    ∧ list_medicines (some "") db = list_medicines none db :=
  ⟨rfl, rfl⟩

/-- C2 counterexample: supplying the empty string as the `time_of_day`
filter, the code returns a record whose `time_of_day` is `"morning"`,
which differs from the supplied filter value `""`. -/
theorem list_filter_counterexample :
    ¬ (∀ r ∈ list_medicines (some "") [medA], r.time_of_day = "") := by
  decide

/-- C2 amended: for every database state and every NON-EMPTY `time_of_day`
filter value supplied to `list_medicines`, every record in the returned
list has a `time_of_day` field equal to the supplied filter value. -/
theorem list_filter_matches (t : String) (db : List Medicine) (ht : t ≠ "") :
    ∀ r ∈ list_medicines (some t) db, r.time_of_day = t := by
  intro r hr
  unfold list_medicines py_truthy at hr
  rw [if_pos (by simpa using ht)] at hr
  have := (List.mem_filter.mp hr).2
  simpa using this

/-- C2 witness: the amended theorem applied to the filter `"morning"` over
the database `[medA]`. -/
theorem list_filter_matches_witness : medA.time_of_day = "morning" :=
  list_filter_matches "morning" [medA] (by decide) medA (by decide)

/-- C3 counterexample: the payload supplying `null` for `name` is accepted
by validation (every `MedicineUpdate` field is `Optional`), so it is a
partial update payload that supplies the field `name`; but applied to the
existing record id 1 the commit violates the NOT NULL constraint on
`name`: the endpoint answers HTTP 500 and the record is left unchanged,
so the supplied field is not changed. -/
theorem update_null_counterexample :
    (update_medicine 1 { name := some none } [medA]).1
        = Except.error ⟨500, "Internal Server Error"⟩
    ∧ (update_medicine 1 { name := some none } [medA]).2 = [medA] := by
  constructor <;> rfl

/-- C3 amended: for every record existing in the database and every
partial update payload that does not supply `null` for a NOT NULL column
(`name`, `dose`, `time_of_day`, `active`), `update_medicine` applied to
that record's id changes exactly the fields supplied in the payload (each
supplied field takes the supplied value, where a supplied `null` stores
`null` in the nullable columns) and every field not supplied retains the
value it had before the update; the record's id is untouched and the
updated record is stored. -/
theorem update_changes_exactly_supplied (medicine_id : Nat)
    (u : MedicineUpdate) (db : List Medicine) (m : Medicine)
    (hfind : db.find? (fun r => r.id == medicine_id) = some m)
    (hnn : nullsNotNullColumn u = false) :
    ∃ m', (update_medicine medicine_id u db).1 = Except.ok m'
      ∧ m' ∈ (update_medicine medicine_id u db).2
      ∧ m'.id = m.id
      ∧ (u.name = none → m'.name = m.name)
      ∧ (∀ v, u.name = some (some v) → m'.name = v)
      ∧ (u.dose = none → m'.dose = m.dose)
      ∧ (∀ v, u.dose = some (some v) → m'.dose = v)
      ∧ (u.time_of_day = none → m'.time_of_day = m.time_of_day)
      ∧ (∀ v, u.time_of_day = some (some v) → m'.time_of_day = v)
      ∧ (u.notes = none → m'.notes = m.notes)
      ∧ (∀ v, u.notes = some v → m'.notes = v)
      ∧ (u.active = none → m'.active = m.active)
      ∧ (∀ v, u.active = some (some v) → m'.active = v)
      ∧ (u.prescription_url = none → m'.prescription_url = m.prescription_url)
      ∧ (∀ v, u.prescription_url = some v → m'.prescription_url = v) := by
  have hcond : ¬ (nullsNotNullColumn u = true) := by simp [hnn]
  have h1 : (update_medicine medicine_id u db).1
      = Except.ok (applyUpdate u m) := by
    unfold update_medicine
    simp only [hfind]
    rw [if_neg hcond]
  have h2 : (update_medicine medicine_id u db).2
      = db.map (fun r => if r.id == medicine_id then applyUpdate u r else r) := by
    unfold update_medicine
    simp only [hfind]
    rw [if_neg hcond]
  have hm : m ∈ db := List.mem_of_find?_eq_some hfind
  have hp : (m.id == medicine_id) = true := by
    have h := List.find?_some hfind
    exact h
  have hmem : applyUpdate u m ∈ (update_medicine medicine_id u db).2 := by
    rw [h2]
    have hfm : (fun r => if r.id == medicine_id then applyUpdate u r else r) m
        = applyUpdate u m := by
      simp [hp]
    exact hfm ▸ List.mem_map_of_mem _ hm
  refine ⟨applyUpdate u m, h1, hmem, rfl,
    ?_, ?_, ?_, ?_, ?_, ?_, ?_, ?_, ?_, ?_, ?_, ?_⟩
  · intro h
    simp [applyUpdate, h]
  · intro v h
    simp [applyUpdate, h]
  · intro h
    simp [applyUpdate, h]
  · intro v h
    simp [applyUpdate, h]
  · intro h
    simp [applyUpdate, h]
  · intro v h
    simp [applyUpdate, h]
  · intro h
    simp [applyUpdate, h]
  · intro v h
    simp [applyUpdate, h]
  · intro h
    simp [applyUpdate, h]
  · intro v h
    simp [applyUpdate, h]
  · intro h
    simp [applyUpdate, h]
  · intro v h
    simp [applyUpdate, h]

/-- C3 witness: updating `medA` (id 1) in `[medA, medB]` with a payload
supplying only non-null `dose` and `active`: the response carries the
supplied `dose` and `active` while the unsupplied `name` keeps its old
value. -/
theorem update_changes_exactly_supplied_witness :
    ∃ m', (update_medicine 1 uSample [medA, medB]).1 = Except.ok m'
      ∧ m'.dose = "250mg" ∧ m'.name = medA.name ∧ m'.active = false := by
  obtain ⟨m', h1, _, _, hnameN, _, _, hdoseS, _, _, _, _, _, hactS, _, _⟩ :=
    update_changes_exactly_supplied 1 uSample [medA, medB] medA (by decide)
      (by decide)
  exact ⟨m', h1, hdoseS "250mg" rfl, hnameN rfl, hactS false rfl⟩

/-- C4: once no record with a given id exists — in particular immediately
after `delete_medicine` on that id — `get_medicine`, `update_medicine` and
`delete_medicine` on that id all answer 404; `delete_medicine` itself
leaves no record with the deleted id behind. -/
theorem deleted_id_not_found (db db₂ : List Medicine) (medicine_id : Nat)
    (u : MedicineUpdate) (h₂ : ∀ r ∈ db₂, r.id ≠ medicine_id) :
    (∀ r ∈ (delete_medicine medicine_id db).2, r.id ≠ medicine_id)
    ∧ (get_medicine medicine_id db₂).1
        = Except.error ⟨404, "Medicine not found"⟩
    ∧ (update_medicine medicine_id u db₂).1
        = Except.error ⟨404, "Medicine not found"⟩
    ∧ (delete_medicine medicine_id db₂).1
        = Except.error ⟨404, "Medicine not found"⟩ := by
  have hnone : db₂.find? (fun r => r.id == medicine_id) = none := by
    rw [List.find?_eq_none]
    intro x hx
    simpa using h₂ x hx
  refine ⟨?_, ?_, ?_, ?_⟩
  · intro r hr
    unfold delete_medicine at hr
    cases hdel : db.find? (fun r => r.id == medicine_id) with
    | none =>
        rw [hdel] at hr
        have := List.find?_eq_none.mp hdel r hr
        simpa using this
    | some m =>
        rw [hdel] at hr
        have := (List.mem_filter.mp hr).2
        simpa using this
  · unfold get_medicine
    rw [hnone]
  · unfold update_medicine
    rw [hnone]
  · unfold delete_medicine
    rw [hnone]

/-- C4 witness: deleting id 1 from `[medA, medB]` leaves no record with
id 1, and on the one-record state `[medB]` (no record with id 1) all three
operations on id 1 answer 404. -/
theorem deleted_id_not_found_witness :
    (∀ r ∈ (delete_medicine 1 [medA, medB]).2, r.id ≠ 1)
    ∧ (get_medicine 1 [medB]).1 = Except.error ⟨404, "Medicine not found"⟩
    ∧ (update_medicine 1 uSample [medB]).1
        = Except.error ⟨404, "Medicine not found"⟩
    ∧ (delete_medicine 1 [medB]).1
        = Except.error ⟨404, "Medicine not found"⟩ :=
  deleted_id_not_found [medA, medB] [medB] 1 uSample (by decide)

/-- C5: for an id referring to an existing record, a successful upload sets
that record's `prescription_url` to `prescriptions/{id}_{filename}` and
answers a success status carrying that path; for an id with no existing
record it answers 404 and leaves the database exactly as it was. -/
theorem upload_sets_prescription_url (medicine_id : Nat) (filename : String)
    (db : List Medicine) :
    (∀ m, db.find? (fun r => r.id == medicine_id) = some m →
      (upload_prescription medicine_id filename true db).1
        = Except.ok ("uploaded",
            "prescriptions/" ++ toString medicine_id ++ "_" ++ filename)
      ∧ ∃ m' ∈ (upload_prescription medicine_id filename true db).2,
          m'.id = m.id
          ∧ m'.prescription_url
              = some ("prescriptions/" ++ toString medicine_id ++ "_" ++ filename))
    ∧ (db.find? (fun r => r.id == medicine_id) = none →
        ∀ writeOk, upload_prescription medicine_id filename writeOk db
          = (Except.error ⟨404, "Medicine not found"⟩, db)) := by
  constructor
  · intro m hfind
    have hm : m ∈ db := List.mem_of_find?_eq_some hfind
    have hp : (m.id == medicine_id) = true := by
      have h := List.find?_some hfind
      exact h
    constructor
    · unfold upload_prescription
      rw [hfind]
      rfl
    · have hurl : "prescriptions/" ++ toString medicine_id ++ "_" ++ filename
          = "prescriptions/" ++ uploadFilename medicine_id filename := by
        unfold uploadFilename
        simp [String.append_assoc]
      rw [hurl]
      refine ⟨{ m with prescription_url := some ("prescriptions/" ++ uploadFilename medicine_id filename) }, ?_, rfl, rfl⟩
      unfold upload_prescription
      rw [hfind]
      have hfm : (fun r => if r.id == medicine_id then { r with prescription_url := some ("prescriptions/" ++ uploadFilename medicine_id filename) } else r) m
          = { m with prescription_url := some ("prescriptions/" ++ uploadFilename medicine_id filename) } := by
        simp [hp]
      exact hfm ▸ List.mem_map_of_mem _ hm
  · intro hnone writeOk
    unfold upload_prescription
    rw [hnone]

/-- C5 witness: uploading `"scan.png"` for id 1 over `[medA, medB]`
succeeds with path `prescriptions/1_scan.png` and stores it; uploading for
id 7 answers 404 and leaves the database unchanged. -/
theorem upload_sets_prescription_url_witness :
    ((upload_prescription 1 "scan.png" true [medA, medB]).1
        = Except.ok ("uploaded", "prescriptions/1_scan.png")
      ∧ ∃ m' ∈ (upload_prescription 1 "scan.png" true [medA, medB]).2,
          m'.id = medA.id
          ∧ m'.prescription_url = some "prescriptions/1_scan.png")
    ∧ upload_prescription 7 "scan.png" true [medA, medB]
        = (Except.error ⟨404, "Medicine not found"⟩, [medA, medB]) :=
  ⟨(upload_sets_prescription_url 1 "scan.png" [medA, medB]).1 medA (by decide),
   (upload_sets_prescription_url 7 "scan.png" [medA, medB]).2 (by decide) true⟩

theorem applyOp_map_id (op : MedOp) (db : List Medicine) :
    (applyOp op db).map (fun r => r.id) = db.map (fun r => r.id) := by
  cases op with
  | update i u =>
      show ((update_medicine i u db).2).map (fun r => r.id)
          = db.map (fun r => r.id)
      unfold update_medicine
      cases hfind : db.find? (fun r => r.id == i) with
      | none => rfl
      | some m =>
          cases hnn : nullsNotNullColumn u with
          | true => rfl
          | false =>
              show (db.map (fun r => if (r.id == i) = true then applyUpdate u r else r)).map (fun r => r.id) = db.map (fun r => r.id)
              rw [List.map_map]
              apply List.map_congr_left
              intro a _
              show (if (a.id == i) = true then applyUpdate u a else a).id = a.id
              split <;> rfl
  | upload i f ok =>
      show ((upload_prescription i f ok db).2).map (fun r => r.id)
          = db.map (fun r => r.id)
      unfold upload_prescription
      cases hfind : db.find? (fun r => r.id == i) with
      | none => rfl
      | some m =>
          cases ok with
          | false => rfl
          | true =>
              show (db.map (fun r => if (r.id == i) = true then { r with prescription_url := some ("prescriptions/" ++ uploadFilename i f) } else r)).map (fun r => r.id) = db.map (fun r => r.id)
              rw [List.map_map]
              apply List.map_congr_left
              intro a _
              show (if (a.id == i) = true then { a with prescription_url := some ("prescriptions/" ++ uploadFilename i f) } else a).id = a.id
              split <;> rfl

/-- C6: the id of a record is immutable once assigned: after any sequence
of `update_medicine` and `upload_prescription` operations the sequence of
ids stored in the database is exactly what it was before, so each record
keeps the id it was created with after each operation. -/
theorem id_immutable (ops : List MedOp) (db : List Medicine) :
    (applyOps ops db).map (fun r => r.id) = db.map (fun r => r.id) := by
  induction ops generalizing db with
  | nil => rfl
  | cons op ops ih =>
      have hstep : applyOps (op :: ops) db = applyOps ops (applyOp op db) := rfl
      rw [hstep, ih, applyOp_map_id]

/-- C7: `list_medicines`, with or without a filter, returns the matching
records in insertion order: the returned list is a sublist of the database
(which is kept in insertion order, since creation appends a row whose
rowid exceeds every existing one), and any record of the database that is
omitted fails the supplied filter. -/
theorem list_insertion_order (t : Option String) (db : List Medicine) :
    (list_medicines t db).Sublist db
    ∧ ∀ r ∈ db, r ∉ list_medicines t db →
        ∃ s, t = some s ∧ r.time_of_day ≠ s := by
  have hsub : (list_medicines t db).Sublist db := by
    unfold list_medicines
    by_cases hpt : py_truthy t = true
    · rw [if_pos hpt]
      exact List.filter_sublist db
    · rw [if_neg hpt]
  refine ⟨hsub, ?_⟩
  intro r hr hnr
  unfold list_medicines at hnr
  by_cases hpt : py_truthy t = true
  · rw [if_pos hpt] at hnr
    cases t with
    | none => simp [py_truthy] at hpt
    | some s =>
        refine ⟨s, rfl, ?_⟩
        intro heq
        apply hnr
        rw [List.mem_filter]
        exact ⟨hr, by simp [heq]⟩
  · rw [if_neg hpt] at hnr
    exact absurd hr hnr

/-- C7 witness: over `[medA, medB]` with the filter `"morning"`, the
omitted record `medB` fails the filter. -/
theorem list_insertion_order_witness :
    ∃ s, (some "morning" : Option String) = some s ∧ medB.time_of_day ≠ s :=
  (list_insertion_order (some "morning") [medA, medB]).2 medB (by decide)
    (by decide)

/-- C8 counterexample: the original claim allows a 500 only from
`upload_prescription`, but the payload supplying `null` for the NOT NULL
column `dose`, accepted by validation, makes `update_medicine` itself
answer HTTP 500: the commit raises `IntegrityError`. -/
theorem errors_update_500_counterexample :
    (update_medicine 2 { dose := some none } [medA, medB]).1
      = Except.error ⟨500, "Internal Server Error"⟩ := by
  rfl

/-- C8 amended: every error any endpoint can produce is a 404 (record or
file absent) or an HTTP 500, where the 500 arises from
`upload_prescription` when the disk write raises and from
`update_medicine` when the payload supplies `null` for a NOT NULL column;
`create_medicine` and `list_medicines` return no error at all, which the
embedding reflects by giving them non-`Except` result types. -/
theorem errors_are_404_or_500 (db : List Medicine) (medicine_id : Nat)
    (u : MedicineUpdate) (filename fname : String) (writeOk : Bool)
    (files : List String) :
    errWithin [404] (get_medicine medicine_id db).1
    ∧ errWithin [404, 500] (update_medicine medicine_id u db).1
    ∧ errWithin [404] (delete_medicine medicine_id db).1
    ∧ errWithin [404, 500]
        (upload_prescription medicine_id filename writeOk db).1
    ∧ errWithin [404] (get_prescription fname files) := by
  refine ⟨?_, ?_, ?_, ?_, ?_⟩
  · unfold get_medicine
    cases db.find? (fun r => r.id == medicine_id) <;> simp [errWithin]
  · unfold update_medicine
    cases db.find? (fun r => r.id == medicine_id) with
    | none => simp [errWithin]
    | some m => cases nullsNotNullColumn u <;> simp [errWithin]
  · unfold delete_medicine
    cases db.find? (fun r => r.id == medicine_id) <;> simp [errWithin]
  · unfold upload_prescription
    cases db.find? (fun r => r.id == medicine_id) with
    | none => simp [errWithin]
    | some m => cases writeOk <;> simp [errWithin]
  · unfold get_prescription
    by_cases h : files.contains fname = true
    · rw [if_pos h]
      simp [errWithin]
    · rw [if_neg h]
      simp [errWithin]

/-- C10: every operation that targets a single record by id
(`update_medicine`, `delete_medicine`, `upload_prescription`) leaves every
record with a different id unchanged in the database. -/
theorem other_records_unchanged (db : List Medicine) (medicine_id : Nat)
    (u : MedicineUpdate) (filename : String) (writeOk : Bool)
    (r : Medicine) (hr : r ∈ db) (hid : r.id ≠ medicine_id) :
    r ∈ (update_medicine medicine_id u db).2
    ∧ r ∈ (delete_medicine medicine_id db).2
    ∧ r ∈ (upload_prescription medicine_id filename writeOk db).2 := by
  have hbeq : (r.id == medicine_id) = false := by simp [hid]
  refine ⟨?_, ?_, ?_⟩
  · unfold update_medicine
    cases hfind : db.find? (fun x => x.id == medicine_id) with
    | none => exact hr
    | some m =>
        cases hnn : nullsNotNullColumn u with
        | true => exact hr
        | false =>
            have hfr : (fun x => if x.id == medicine_id then applyUpdate u x else x) r
                = r := by
              simp [hbeq]
            exact hfr ▸ List.mem_map_of_mem _ hr
  · unfold delete_medicine
    cases hfind : db.find? (fun x => x.id == medicine_id) with
    | none => exact hr
    | some m =>
        exact List.mem_filter.mpr ⟨hr, by simp [hbeq]⟩
  · unfold upload_prescription
    cases hfind : db.find? (fun x => x.id == medicine_id) with
    | none => exact hr
    | some m =>
        cases writeOk with
        | false => exact hr
        | true =>
            have hfr : (fun x => if x.id == medicine_id then { x with prescription_url := some ("prescriptions/" ++ uploadFilename medicine_id filename) } else x) r = r := by
              simp [hbeq]
            exact hfr ▸ List.mem_map_of_mem _ hr

/-- C10 witness: with operations targeting id 1 over `[medA, medB]`, the
record `medB` (id 2) stays in the database. -/
theorem other_records_unchanged_witness :
    medB ∈ (update_medicine 1 uSample [medA, medB]).2
    ∧ medB ∈ (delete_medicine 1 [medA, medB]).2
    ∧ medB ∈ (upload_prescription 1 "scan.png" true [medA, medB]).2 :=
  other_records_unchanged [medA, medB] 1 uSample "scan.png" true medB
    (by decide) (by decide)
